import Mathlib

/-!
# Verification of the Akeyless Terraform provider's auth dispatch and SAML CRUD glue

A shallow embedding of `akeyless/provider.go` (authentication-strategy
selection, configure-time input validation, token exchange) and
`akeyless/resource_auth_method_saml.go` (Create/Read/Update/Delete handlers
for the SAML auth-method resource), together with theorems checking the
natural-language specification against the embedded code.

Remote calls (the Akeyless API, the AWS/Azure cloud-identity fetchers) are
modelled as explicit oracle arguments: each embedded operation receives the
outcome of its single remote call as a value of `CallResult`, so that "makes
no network call" is expressible as independence from the oracle, and the
number of token-exchange attempts is returned explicitly.
-/

deriving instance DecidableEq for Except

namespace Akeyless

/-- Error shape of a remote call, mirroring the Go SDK: a structured
`GenericOpenAPIError` carries the HTTP status of the accompanying response
and the raw response body; anything else is a transport-level error. -/
inductive RemoteErr where
  | api (status : Nat) (body : String)
  | transport (msg : String)
deriving DecidableEq, Repr

/-- Outcome of one remote call: a decoded output value or a `RemoteErr`. -/
inductive CallResult (α : Type) where
  | ok (out : α)
  | err (e : RemoteErr)
deriving DecidableEq, Repr

namespace common

/-- Modelled from the spec: the `common` package (not under `src/`) exposes
string-typed access-type constants for the four strategies ("api-key",
"password" as raw strings, per §9 of the spec). -/
def ApiKey : String := "api-key"

/-- Modelled from the spec: access-type constant of the email/password strategy. -/
def Password : String := "password"

/-- Modelled from the spec: access-type constant of the AWS-IAM strategy. -/
def AwsIAM : String := "aws-iam"

/-- Modelled from the spec: access-type constant of the Azure-AD strategy. -/
def AzureAD : String := "azure-ad"

end common

/-- Embedding of `akeyless.Auth`, the token-exchange request body: the Go
struct's optional pointer fields become `Option`s. Only the fields the
provider writes are carried. -/
structure Auth where
  accessId : Option String
  accessKey : Option String
  adminEmail : Option String
  adminPassword : Option String
  cloudId : Option String
  accessType : Option String
deriving DecidableEq, Repr

/-- Embedding of `akeyless.NewAuthWithDefaults()`: all optional fields unset. -/
def newAuthWithDefaults : Auth :=
  { accessId := none, accessKey := none, adminEmail := none
    adminPassword := none, cloudId := none, accessType := none }

/-- One `api_key_login` block: `access_id` and `access_key`. -/
structure ApiKeyCred where
  access_id : String
  access_key : String
deriving DecidableEq, Repr

/-- One `email_login` block: `admin_email` and `admin_password`. -/
structure EmailCred where
  admin_email : String
  admin_password : String
deriving DecidableEq, Repr

/-- One `aws_iam_login` or `azure_ad_login` block: just an `access_id`. -/
structure CloudCred where
  access_id : String
deriving DecidableEq, Repr

/-- The provider configuration's login blocks, as the Go code reads them:
each `TypeList` block becomes a Go slice, here a Lean list (the schema
allows repetition; `inputValidation` rejects length above one). -/
structure ProviderConfig where
  apiKeyLogin : List ApiKeyCred
  emailLogin : List EmailCred
  awsIAMLogin : List CloudCred
  azureADLogin : List CloudCred
deriving DecidableEq, Repr

/-- The two credential environment variables `AKEYLESS_ACCESS_ID` and
`AKEYLESS_ACCESS_KEY`; Go's `os.Getenv` yields `""` when unset. -/
structure EnvVars where
  accessId : String
  accessKey : String
deriving DecidableEq, Repr

/-- Embedding of `setAuthBody` (`provider.go:150-203`): the priority-ordered
if/else chain that populates the token-exchange body. The AWS/Azure
cloud-identity fetches (`aws.GetCloudId`, `azure.GetCloudId`) are passed in
as `Except` oracles; a failed fetch is wrapped as `require Cloud ID: <err>`.
The final else reports the unsupported-login error. -/
def setAuthBody (cfg : ProviderConfig) (env : EnvVars)
    (awsGetCloudId azureGetCloudId : Except String String) :
    Except String Auth :=
  match cfg.apiKeyLogin with
  | [login] =>
      .ok { newAuthWithDefaults with
              accessId := some login.access_id,
              accessKey := some login.access_key,
              accessType := some common.ApiKey }
  | _ =>
    if env.accessId != "" && env.accessKey != "" then
      .ok { newAuthWithDefaults with
              accessId := some env.accessId,
              accessKey := some env.accessKey,
              accessType := some common.ApiKey }
    else
      match cfg.emailLogin with
      | [login] =>
          .ok { newAuthWithDefaults with
                  adminEmail := some login.admin_email,
                  adminPassword := some login.admin_password,
                  accessType := some common.Password }
      | _ =>
        match cfg.awsIAMLogin with
        | [login] =>
            match awsGetCloudId with
            | .error e => .error ("require Cloud ID: " ++ e)
            | .ok cloudId =>
                .ok { newAuthWithDefaults with
                        accessId := some login.access_id,
                        cloudId := some cloudId,
                        accessType := some common.AwsIAM }
        | _ =>
          match cfg.azureADLogin with
          | [login] =>
              match azureGetCloudId with
              | .error e => .error ("require Cloud ID: " ++ e)
              | .ok cloudId =>
                  .ok { newAuthWithDefaults with
                          accessId := some login.access_id,
                          cloudId := some cloudId,
                          accessType := some common.AzureAD }
          | _ =>
              .error "please support login method: api_key_login/password_login/aws_iam_login/azure_ad_login"

/-- Embedding of `inputValidation` (`provider.go:210-228`): each login block
list may hold at most one element; the first offending block type's error is
returned. -/
def inputValidation (cfg : ProviderConfig) : Except String Unit :=
  if cfg.apiKeyLogin.length > 1 then
    .error "api_key_login block may appear only once"
  else if cfg.emailLogin.length > 1 then
    .error "emailLogin block may appear only once"
  else if cfg.awsIAMLogin.length > 1 then
    .error "aws_iam_login block may appear only once"
  else if cfg.azureADLogin.length > 1 then
    .error "azure_ad_login block may appear only once"
  else
    .ok ()

/-- Decoded output of the `Auth` endpoint: `authOut.GetToken()`. -/
structure AuthOutput where
  token : String
deriving DecidableEq, Repr

/-- Embedding of `configureProvider` (`provider.go:113-148`): validate the
login blocks, build the auth body, then perform the single token-exchange
call (`client.Auth(ctx).Body(*authBody).Execute()`, given as the oracle
`authExec`). Returns the result together with the number of token-exchange
network calls performed, so that call-count properties are statable. -/
def configureProvider (cfg : ProviderConfig) (env : EnvVars)
    (awsGetCloudId azureGetCloudId : Except String String)
    (authExec : Auth → CallResult AuthOutput) :
    Except String String × Nat :=
  match inputValidation cfg with
  | .error e => (.error e, 0)
  | .ok () =>
    match setAuthBody cfg env awsGetCloudId azureGetCloudId with
    | .error e => (.error e, 0)
    | .ok authBody =>
      match authExec authBody with
      | .ok authOut => (.ok authOut.token, 1)
      | .err (.api _ body) => (.error ("authentication failed: " ++ body), 1)
      | .err (.transport e) => (.error ("authentication failed: " ++ e), 1)

namespace http

/-- Go's `net/http` status constant used by the Read handler. -/
def StatusNotFound : Nat := 404

end http

/-- The Terraform state/configuration of one `akeyless_auth_method_saml`
resource: the schema fields of `resourceAuthMethodSaml` plus the resource
identity `id` (`d.Id()` / `d.SetId`). Set-typed fields (`bound_ips`,
`allowed_redirect_uri`) are carried as lists of strings, as the handlers
read them via `common.ExpandStringList(set.List())`. -/
structure SamlState where
  id : String
  name : String
  access_id : String
  access_expires : Int
  force_sub_claims : Bool
  bound_ips : List String
  unique_identifier : String
  idp_metadata_url : String
  allowed_redirect_uri : List String
deriving DecidableEq, Repr

namespace common

/-- Modelled from the spec: `common.GetAkeylessPtr` (not under `src/`) sets
the optional request-body field it is pointed at to the given configuration
value — per §4.3 the Update body "additionally passing the current name as
both `name` and `new_name`", i.e. the helper stores the value into the
optional field. -/
def GetAkeylessPtr {α : Type} (v : α) : Option α := some v

end common

/-- Embedding of `akeyless.CreateAuthMethodSAML`, the Create request body. -/
structure CreateAuthMethodSAML where
  name : String
  uniqueIdentifier : String
  token : String
  accessExpires : Option Int
  boundIps : Option (List String)
  forceSubClaims : Option Bool
  idpMetadataUrl : Option String
  allowedRedirectUri : Option (List String)
deriving DecidableEq, Repr

/-- Embedding of `akeyless.UpdateAuthMethodSAML`, the Update request body:
the Create fields plus the optional `newName`. -/
structure UpdateAuthMethodSAML where
  name : String
  uniqueIdentifier : String
  token : String
  accessExpires : Option Int
  boundIps : Option (List String)
  forceSubClaims : Option Bool
  idpMetadataUrl : Option String
  allowedRedirectUri : Option (List String)
  newName : Option String
deriving DecidableEq, Repr

/-- Embedding of `akeyless.DeleteAuthMethod`, the Delete request body. -/
structure DeleteAuthMethod where
  token : String
  name : String
deriving DecidableEq, Repr

/-- Embedding of `akeyless.GetAuthMethod`, the Read request body. -/
structure GetAuthMethod where
  name : String
  token : String
deriving DecidableEq, Repr

/-- Decoded output of `CreateAuthMethodSAML`: the server-computed access id. -/
structure CreateSAMLOutput where
  accessId : Option String
deriving DecidableEq, Repr

/-- Decoded output of `UpdateAuthMethodSAML`; the handler discards it, but a
server-computed access id may be present. -/
structure UpdateSAMLOutput where
  accessId : Option String
deriving DecidableEq, Repr

/-- The SAML access rules of a `GetAuthMethod` response. -/
structure SamlAccessRules where
  uniqueIdentifier : Option String
  idpMetadataUrl : Option String
  allowedRedirectURIs : Option (List String)
deriving DecidableEq, Repr

/-- The access info of a `GetAuthMethod` response: optional expiry,
sub-claims flag, the comma-joined CIDR whitelist, and the SAML rules. -/
structure AccessInfo where
  accessExpires : Option Int
  forceSubClaims : Option Bool
  cidrWhitelist : Option String
  samlAccessRules : SamlAccessRules
deriving DecidableEq, Repr

/-- Decoded output of `GetAuthMethod`. -/
structure GetAuthMethodOutput where
  authMethodAccessId : Option String
  accessInfo : AccessInfo
deriving DecidableEq, Repr

/-- One step of Go's `strings.Split` on a single-character separator:
splitting a character list at every occurrence of `c`. Mirrors Go's
semantics: the result is always non-empty, and splitting the empty string
yields one empty piece. -/
def splitOnChar (c : Char) : List Char → List (List Char)
  | [] => [[]]
  | a :: as =>
    match splitOnChar c as with
    | [] => [[]]
    | piece :: rest =>
      if a = c then [] :: piece :: rest else (a :: piece) :: rest

/-- Embedding of Go's `strings.Split(s, sep)` as used by the Read handler,
specialised to the one-character separator `","` it is called with. -/
def stringsSplit (s : String) (sep : Char) : List String :=
  (splitOnChar sep s.toList).map (fun cs => String.mk cs)

/-- Joining character lists with a separator character between pieces. -/
def joinSep (c : Char) : List (List Char) → List Char
  | [] => []
  | [x] => x
  | x :: y :: rest => x ++ c :: joinSep c (y :: rest)

/-- Modelled from the spec: the remote API (an external collaborator, not
under `src/`) represents list-typed fields such as the CIDR whitelist "as
comma-joined strings ... on the way out". -/
def commaJoin (l : List String) : String :=
  String.mk (joinSep ',' (l.map String.toList))

/-- The Create request body built by `resourceAuthMethodSamlCreate`
(`resource_auth_method_saml.go:87-106`) from the configured fields. -/
def samlCreateBody (st : SamlState) (token : String) : CreateAuthMethodSAML :=
  { name := st.name
    uniqueIdentifier := st.unique_identifier
    token := token
    accessExpires := common.GetAkeylessPtr st.access_expires
    boundIps := common.GetAkeylessPtr st.bound_ips
    forceSubClaims := common.GetAkeylessPtr st.force_sub_claims
    idpMetadataUrl := common.GetAkeylessPtr st.idp_metadata_url
    allowedRedirectUri := common.GetAkeylessPtr st.allowed_redirect_uri }

/-- Embedding of `resourceAuthMethodSamlCreate` (`resource_auth_method_saml.go:80-126`).
`exec` is the remote `CreateAuthMethodSAML(ctx).Body(body).Execute()` call,
applied to the body the handler builds: on a structured API error or a
transport error the state is untouched and an error is returned; on success
the server-computed access id (when present) is stored and the identity is
set to the configured name. -/
def resourceAuthMethodSamlCreate (st : SamlState) (token : String)
    (exec : CreateAuthMethodSAML → CallResult CreateSAMLOutput) :
    SamlState × Except String Unit :=
  let body := samlCreateBody st token
  match exec body with
  | .err (.api _ b) => (st, .error ("can't create Secret: " ++ b))
  | .err (.transport e) => (st, .error ("can't create Secret: " ++ e))
  | .ok rOut =>
    let st' :=
      match rOut.accessId with
      | some a => { st with access_id := a }
      | none => st
    ({ st' with id := st.name }, .ok ())

/-- Embedding of `resourceAuthMethodSamlRead` (`resource_auth_method_saml.go:128-205`).
`exec` is the remote `GetAuthMethod(ctx).Body(body).Execute()` call, applied
to a body holding the stored identity `d.Id()`: a structured API error with
HTTP status 404 clears the identity and succeeds; any other error leaves the
state untouched and fails; on success each optional response field present
is written into state (the CIDR whitelist additionally only when non-empty,
split on commas) and the identity is re-set to its value at entry. -/
def resourceAuthMethodSamlRead (st : SamlState) (token : String)
    (exec : GetAuthMethod → CallResult GetAuthMethodOutput) :
    SamlState × Except String Unit :=
  let path := st.id
  let body : GetAuthMethod := { name := path, token := token }
  match exec body with
  | .err (.api status body) =>
    if status = http.StatusNotFound then
      ({ st with id := "" }, .ok ())
    else
      (st, .error ("can't value: " ++ body))
  | .err (.transport e) => (st, .error ("can't get value: " ++ e))
  | .ok rOut =>
    let st1 :=
      match rOut.authMethodAccessId with
      | some a => { st with access_id := a }
      | none => st
    let st2 :=
      match rOut.accessInfo.accessExpires with
      | some v => { st1 with access_expires := v }
      | none => st1
    let st3 :=
      match rOut.accessInfo.forceSubClaims with
      | some v => { st2 with force_sub_claims := v }
      | none => st2
    let st4 :=
      match rOut.accessInfo.cidrWhitelist with
      | some c => if c != "" then { st3 with bound_ips := stringsSplit c ',' } else st3
      | none => st3
    let st5 :=
      match rOut.accessInfo.samlAccessRules.uniqueIdentifier with
      | some v => { st4 with unique_identifier := v }
      | none => st4
    let st6 :=
      match rOut.accessInfo.samlAccessRules.idpMetadataUrl with
      | some v => { st5 with idp_metadata_url := v }
      | none => st5
    let st7 :=
      match rOut.accessInfo.samlAccessRules.allowedRedirectURIs with
      | some v => { st6 with allowed_redirect_uri := v }
      | none => st6
    ({ st7 with id := path }, .ok ())

/-- The Update request body built by `resourceAuthMethodSamlUpdate`
(`resource_auth_method_saml.go:214-234`): same field-gathering as Create,
with `new_name` additionally set to the configured name. -/
def samlUpdateBody (st : SamlState) (token : String) : UpdateAuthMethodSAML :=
  { name := st.name
    uniqueIdentifier := st.unique_identifier
    token := token
    accessExpires := common.GetAkeylessPtr st.access_expires
    boundIps := common.GetAkeylessPtr st.bound_ips
    forceSubClaims := common.GetAkeylessPtr st.force_sub_claims
    idpMetadataUrl := common.GetAkeylessPtr st.idp_metadata_url
    allowedRedirectUri := common.GetAkeylessPtr st.allowed_redirect_uri
    newName := common.GetAkeylessPtr st.name }

/-- Embedding of `resourceAuthMethodSamlUpdate` (`resource_auth_method_saml.go:207-247`).
`exec` is the remote `UpdateAuthMethodSAML(ctx).Body(body).Execute()` call,
applied to the body the handler builds: errors leave the state untouched; on
success the response is discarded and the identity is re-set to the
configured name. -/
def resourceAuthMethodSamlUpdate (st : SamlState) (token : String)
    (exec : UpdateAuthMethodSAML → CallResult UpdateSAMLOutput) :
    SamlState × Except String Unit :=
  let body := samlUpdateBody st token
  match exec body with
  | .err (.api _ b) => (st, .error ("can't update : " ++ b))
  | .err (.transport e) => (st, .error ("can't update : " ++ e))
  | .ok _ => ({ st with id := st.name }, .ok ())

/-- The Delete request body built by `resourceAuthMethodSamlDelete`
(`resource_auth_method_saml.go:254-259`): the stored identity `d.Id()`. -/
def samlDeleteBody (st : SamlState) (token : String) : DeleteAuthMethod :=
  { token := token, name := st.id }

/-- Embedding of `resourceAuthMethodSamlDelete` (`resource_auth_method_saml.go:249-268`).
`exec` is the remote `DeleteAuthMethod(ctx).Body(deleteItem).Execute()`
call, applied to a body holding the stored identity: any error is returned
as-is (the `RemoteErr` value itself, not a reformatted message) and the
state is untouched; success changes nothing. -/
def resourceAuthMethodSamlDelete (st : SamlState) (token : String)
    (exec : DeleteAuthMethod → CallResult Unit) :
    SamlState × Except RemoteErr Unit :=
  let deleteItem := samlDeleteBody st token
  match exec deleteItem with
  | .ok _ => (st, .ok ())
  | .err e => (st, .error e)

/-- Whether `sub` starts the character list `s`. -/
def startsWithSeq : List Char → List Char → Bool
  | _, [] => true
  | [], _ :: _ => false
  | a :: as, b :: bs => a = b && startsWithSeq as bs

/-- Whether `sub` occurs contiguously inside `s`. -/
def hasSubSeq (sub : List Char) : List Char → Bool
  | [] => startsWithSeq [] sub
  | a :: as => startsWithSeq (a :: as) sub || hasSubSeq sub as

/-- Whether the string `s` mentions `sub` as a contiguous substring. -/
def strMentions (s sub : String) : Bool :=
  hasSubSeq sub.toList s.toList

/-- The four authentication strategies of the spec's §4.1 selection table. -/
inductive Strategy where
  | APIKey
  | Password
  | AwsIAM
  | AzureAD
deriving DecidableEq, Repr

/-- Reads the strategy back from the access-type string an auth body carries. -/
def strategyOfAccessType (t : Option String) : Option Strategy :=
  if t = some common.ApiKey then some .APIKey
  else if t = some common.Password then some .Password
  else if t = some common.AwsIAM then some .AwsIAM
  else if t = some common.AzureAD then some .AzureAD
  else none

/-- The observable outcome of strategy selection: `none` when selection
fails, otherwise the selected strategy together with the access id the body
carries (which identifies the credential source: the configured block's id,
or the environment's). -/
def obsAuth : Except String Auth → Option (Strategy × Option String)
  | .error _ => none
  | .ok b => (strategyOfAccessType b.accessType).map (fun s => (s, b.accessId))

/-- The selection table as the spec states it (first match wins, priority
fixed): (1) a configured `api_key_login` block yields APIKey; (2) else both
environment variables non-empty yields APIKey from the environment; (3) else
a configured `email_login` block yields Password; (4) else a configured
`aws_iam_login` block yields AwsIAM; (5) else a configured `azure_ad_login`
block yields AzureAD; (6) else selection fails. Stated independently of the
embedded `setAuthBody`, for comparison against it. -/
def specSelectedAuth (cfg : ProviderConfig) (env : EnvVars) :
    Option (Strategy × Option String) :=
  match cfg.apiKeyLogin with
  | [login] => some (.APIKey, some login.access_id)
  | _ =>
    if env.accessId != "" && env.accessKey != "" then
      some (.APIKey, some env.accessId)
    else
      match cfg.emailLogin with
      | [_] => some (.Password, none)
      | _ =>
        match cfg.awsIAMLogin with
        | [login] => some (.AwsIAM, some login.access_id)
        | _ =>
          match cfg.azureADLogin with
          | [login] => some (.AzureAD, some login.access_id)
          | _ => none

/-- A provider configuration with no login blocks at all. -/
def cfgEmpty : ProviderConfig :=
  { apiKeyLogin := [], emailLogin := [], awsIAMLogin := [], azureADLogin := [] }

/-- A provider configuration with a single `api_key_login` block. -/
def cfgApiKey : ProviderConfig :=
  { cfgEmpty with apiKeyLogin := [{ access_id := "p-id", access_key := "p-key" }] }

/-- A provider configuration in which two distinct block types each appear
twice: both `api_key_login` and `email_login` are duplicated. -/
def cfgDupBlocks : ProviderConfig :=
  { apiKeyLogin := [{ access_id := "i1", access_key := "k1" },
                    { access_id := "i2", access_key := "k2" }]
    emailLogin := [{ admin_email := "a@x.io", admin_password := "p1" },
                   { admin_email := "b@x.io", admin_password := "p2" }]
    awsIAMLogin := []
    azureADLogin := [] }

/-- Environment with neither credential variable set (`os.Getenv` yields ""). -/
def envEmpty : EnvVars := { accessId := "", accessKey := "" }

/-- A concrete SAML resource state used by witnesses. -/
def stExample : SamlState :=
  { id := "am1", name := "am1", access_id := "p-0000"
    access_expires := 0, force_sub_claims := false
    bound_ips := [], unique_identifier := "email"
    idp_metadata_url := "", allowed_redirect_uri := [] }

/-- A concrete SAML resource state holding one bound IP. -/
def stBoundIp : SamlState :=
  { stExample with bound_ips := ["10.0.0.0/8"] }

/-- A `GetAuthMethod` response whose CIDR whitelist is present but empty,
all other optional fields absent. -/
def rOutEmptyCidr : GetAuthMethodOutput :=
  { authMethodAccessId := none
    accessInfo :=
      { accessExpires := none, forceSubClaims := none
        cidrWhitelist := some ""
        samlAccessRules :=
          { uniqueIdentifier := none, idpMetadataUrl := none
            allowedRedirectURIs := none } } }

/-- A `GetAuthMethod` response carrying the comma-joined two-element CIDR
whitelist of the spec's example, all other optional fields absent. -/
def rOutTwoCidrs : GetAuthMethodOutput :=
  { rOutEmptyCidr with
    accessInfo :=
      { rOutEmptyCidr.accessInfo with
        cidrWhitelist := some "10.0.0.0/8,192.168.0.0/16" } }

/-! ## Helper lemmas about splitting and joining -/

theorem splitOnChar_ne_nil (c : Char) (s : List Char) : splitOnChar c s ≠ [] := by
  induction s with
  | nil => simp [splitOnChar]
  | cons a as ih =>
    cases h : splitOnChar c as with
    | nil => exact absurd h ih
    | cons p r =>
      simp only [splitOnChar, h]
      split <;> simp

theorem splitOnChar_of_not_mem (c : Char) (x : List Char) (hx : c ∉ x) :
    splitOnChar c x = [x] := by
  induction x with
  | nil => rfl
  | cons a as ih =>
    have hac : ¬ (a = c) := by rintro rfl; exact hx (List.mem_cons_self a as)
    have has : c ∉ as := fun h => hx (List.mem_cons_of_mem _ h)
    simp only [splitOnChar, ih has]
    rw [if_neg hac]

theorem splitOnChar_append (c : Char) (x r : List Char) (hx : c ∉ x) :
    splitOnChar c (x ++ c :: r) = x :: splitOnChar c r := by
  induction x with
  | nil =>
    simp only [List.nil_append, splitOnChar]
    cases h : splitOnChar c r with
    | nil => exact absurd h (splitOnChar_ne_nil c r)
    | cons p t => simp
  | cons a as ih =>
    have hac : ¬ (a = c) := by rintro rfl; exact hx (List.mem_cons_self a as)
    have has : c ∉ as := fun h => hx (List.mem_cons_of_mem _ h)
    cases h : splitOnChar c (as ++ c :: r) with
    | nil => exact absurd h (splitOnChar_ne_nil _ _)
    | cons p t =>
      have hiht := ih has
      rw [h] at hiht
      injection hiht with h1 h2
      simp only [List.cons_append, splitOnChar, List.append_eq, h]
      rw [if_neg hac, h1, h2]

theorem splitOnChar_joinSep (c : Char) (l : List (List Char)) (hl : l ≠ [])
    (h : ∀ x ∈ l, c ∉ x) : splitOnChar c (joinSep c l) = l := by
  induction l with
  | nil => exact absurd rfl hl
  | cons x t ih =>
    cases t with
    | nil =>
      simp only [joinSep]
      exact splitOnChar_of_not_mem c x (h x (List.mem_cons_self _ _))
    | cons y t2 =>
      simp only [joinSep]
      rw [splitOnChar_append c x _ (h x (List.mem_cons_self _ _))]
      rw [ih (by simp) (fun z hz => h z (List.mem_cons_of_mem _ hz))]

theorem string_mk_toList (s : String) : String.mk s.toList = s := rfl

theorem stringsSplit_commaJoin (l : List String) (hl : l ≠ [])
    (h : ∀ x ∈ l, ',' ∉ x.toList) : stringsSplit (commaJoin l) ',' = l := by
  unfold stringsSplit commaJoin
  rw [show (String.mk (joinSep ',' (l.map String.toList))).toList
        = joinSep ',' (l.map String.toList) from rfl]
  rw [splitOnChar_joinSep ',' (l.map String.toList) (by simpa using hl)
        (by intro x hx
            obtain ⟨s, hs, rfl⟩ := List.mem_map.mp hx
            exact h s hs)]
  rw [List.map_map]
  simp [Function.comp_def, string_mk_toList]

/-- On a successful `GetAuthMethod` response `r`, Read writes exactly the
present optional fields (the CIDR whitelist only when non-empty, split on
commas), leaves absent ones at their previous values, and re-sets the
identity to its value at entry. Shared shape lemma for the Read theorems. -/
theorem read_ok_eq (st : SamlState) (token : String)
    (exec : GetAuthMethod → CallResult GetAuthMethodOutput)
    (r : GetAuthMethodOutput)
    (h : exec { name := st.id, token := token } = .ok r) :
    resourceAuthMethodSamlRead st token exec
      = ({ st with
            access_id := r.authMethodAccessId.getD st.access_id
            access_expires := r.accessInfo.accessExpires.getD st.access_expires
            force_sub_claims := r.accessInfo.forceSubClaims.getD st.force_sub_claims
            bound_ips :=
              match r.accessInfo.cidrWhitelist with
              | some c => if c != "" then stringsSplit c ',' else st.bound_ips
              | none => st.bound_ips
            unique_identifier :=
              r.accessInfo.samlAccessRules.uniqueIdentifier.getD st.unique_identifier
            idp_metadata_url :=
              r.accessInfo.samlAccessRules.idpMetadataUrl.getD st.idp_metadata_url
            allowed_redirect_uri :=
              r.accessInfo.samlAccessRules.allowedRedirectURIs.getD st.allowed_redirect_uri },
         .ok ()) := by
  rcases r with ⟨aid, ⟨aex, fsc, cidr, ⟨ui, idp, aru⟩⟩⟩
  cases aid <;> cases aex <;> cases fsc <;> cases cidr <;>
  cases ui <;> cases idp <;> cases aru <;>
  simp [resourceAuthMethodSamlRead, h] <;>
  split <;> simp

/-! ## Claim theorems -/

/-- Claim C1: the auth strategy selector picks exactly one strategy by the
fixed priority order, first match wins: a configured `api_key_login` block
yields APIKey; else both environment variables non-empty yields APIKey from
the environment (the env access id); else a configured `email_login` block
yields Password; else `aws_iam_login` yields AwsIAM; else `azure_ad_login`
yields AzureAD; else selection fails. Stated (with the cloud-identity
fetches succeeding) as: the strategy and credential source observable of
`setAuthBody` coincides with the spec's selection table `specSelectedAuth`
on every configuration and environment, so a later strategy is never chosen
when an earlier condition holds. -/
theorem C1_selector_first_match_wins (cfg : ProviderConfig) (env : EnvVars)
    (awsCloudId azureCloudId : String) :
    obsAuth (setAuthBody cfg env (.ok awsCloudId) (.ok azureCloudId))
      = specSelectedAuth cfg env := by
  rcases cfg with ⟨ak, em, aw, az⟩
  rcases ak with _ | ⟨a1, _ | ⟨a2, akt⟩⟩ <;>
  rcases em with _ | ⟨e1, _ | ⟨e2, emt⟩⟩ <;>
  rcases aw with _ | ⟨w1, _ | ⟨w2, awt⟩⟩ <;>
  rcases az with _ | ⟨z1, _ | ⟨z2, azt⟩⟩ <;>
  by_cases henv : (env.accessId != "" && env.accessKey != "") = true <;>
  simp [setAuthBody, specSelectedAuth, obsAuth, strategyOfAccessType,
        newAuthWithDefaults, henv, common.ApiKey, common.Password,
        common.AwsIAM, common.AzureAD]

/-- Claim C2: if the remote get call fails with a structured API error of
HTTP status 404, Read clears the resource identity (sets it to `""`) and
returns success; on any other structured API error, and on any transport
error, Read returns an error and leaves the state (the identity included)
untouched. -/
theorem C2_read_not_found_contract :
    (∀ (st : SamlState) (token : String)
        (exec : GetAuthMethod → CallResult GetAuthMethodOutput) (body : String),
        exec { name := st.id, token := token } = .err (.api 404 body) →
        resourceAuthMethodSamlRead st token exec = ({ st with id := "" }, .ok ()))
    ∧ (∀ (st : SamlState) (token : String)
        (exec : GetAuthMethod → CallResult GetAuthMethodOutput)
        (status : Nat) (body : String), status ≠ 404 →
        exec { name := st.id, token := token } = .err (.api status body) →
        resourceAuthMethodSamlRead st token exec
          = (st, .error ("can't value: " ++ body)))
    ∧ (∀ (st : SamlState) (token : String)
        (exec : GetAuthMethod → CallResult GetAuthMethodOutput) (e : String),
        exec { name := st.id, token := token } = .err (.transport e) →
        resourceAuthMethodSamlRead st token exec
          = (st, .error ("can't get value: " ++ e))) := by
  refine ⟨?_, ?_, ?_⟩ <;> intros <;>
  simp [resourceAuthMethodSamlRead, http.StatusNotFound, *]

/-- Witness for C2 at a concrete state and a concrete 403 response. -/
theorem C2_read_witness :
    (403 : Nat) ≠ 404 ∧
    resourceAuthMethodSamlRead stExample "tok"
        (fun _ => .err (.api 403 "denied"))
      = (stExample, .error ("can't value: " ++ "denied")) :=
  ⟨by decide,
   C2_read_not_found_contract.2.1 stExample "tok"
     (fun _ => .err (.api 403 "denied")) 403 "denied" (by decide) rfl⟩

/-- Claim C3: for every finite set of bound-IP strings with no commas and no
empty elements, Create sends the set unchanged, and Read's comma-split of
the API's comma-joined representation reconstructs exactly the original
set (as a set). -/
theorem C3_bound_ips_round_trip (st : SamlState) (token : String)
    (l : List String) (hl : ∀ x ∈ l, x ≠ "" ∧ ',' ∉ x.toList) :
    (samlCreateBody { st with bound_ips := l } token).boundIps = some l
    ∧ ∀ (exec : GetAuthMethod → CallResult GetAuthMethodOutput)
        (r : GetAuthMethodOutput),
        r.accessInfo.cidrWhitelist = some (commaJoin l) →
        exec { name := st.id, token := token } = .ok r →
        ((resourceAuthMethodSamlRead { st with bound_ips := l } token
            exec).1.bound_ips).toFinset = l.toFinset := by
  constructor
  · rfl
  · intro exec r hr hex
    rw [read_ok_eq { st with bound_ips := l } token exec r hex]
    by_cases hj : commaJoin l = ""
    · simp [hr, hj]
    · have hlne : l ≠ [] := by rintro rfl; exact hj rfl
      simp [hr, hj, stringsSplit_commaJoin l hlne (fun y hy => (hl y hy).2)]

/-- Witness for C3 at the spec's concrete two-element whitelist. -/
theorem C3_round_trip_witness :
    (samlCreateBody { stExample with bound_ips := ["10.0.0.0/8", "192.168.0.0/16"] }
        "tok").boundIps = some ["10.0.0.0/8", "192.168.0.0/16"]
    ∧ ((resourceAuthMethodSamlRead
          { stExample with bound_ips := ["10.0.0.0/8", "192.168.0.0/16"] } "tok"
          (fun _ => .ok rOutTwoCidrs)).1.bound_ips).toFinset
        = (["10.0.0.0/8", "192.168.0.0/16"] : List String).toFinset := by
  have h := C3_bound_ips_round_trip stExample "tok"
      ["10.0.0.0/8", "192.168.0.0/16"] (by decide)
  exact ⟨h.1, h.2 (fun _ => .ok rOutTwoCidrs) rOutTwoCidrs (by decide) rfl⟩

/-- Claim C4: the Update request body carries the configured name as both
its `name` and its `new_name` field (no independent rename path), and on a
successful remote call the identity is re-set to that name. -/
theorem C4_update_new_name_equals_name (st : SamlState) (token : String) :
    (samlUpdateBody st token).name = st.name
    ∧ (samlUpdateBody st token).newName = some st.name
    ∧ ∀ (exec : UpdateAuthMethodSAML → CallResult UpdateSAMLOutput)
        (out : UpdateSAMLOutput),
        exec (samlUpdateBody st token) = .ok out →
        resourceAuthMethodSamlUpdate st token exec
          = ({ st with id := st.name }, .ok ()) := by
  refine ⟨rfl, rfl, ?_⟩
  intro exec out h
  simp [resourceAuthMethodSamlUpdate, h]

/-- Witness for C4 at a concrete state, with the remote update succeeding. -/
theorem C4_update_witness :
    resourceAuthMethodSamlUpdate stExample "tok" (fun _ => .ok { accessId := none })
      = ({ stExample with id := stExample.name }, .ok ()) :=
  (C4_update_new_name_equals_name stExample "tok").2.2
    (fun _ => .ok { accessId := none }) { accessId := none } rfl

/-- Counterexample to claim C5 as stated: in a configuration where two
distinct block types (`api_key_login` and `email_login`) each appear more
than once, validation reports a single error — that of `api_key_login` —
and the duplicated `email_login` block is not reported at all, so there is
not one error per offending block type. -/
theorem C5_counterexample_first_error_only :
    1 < cfgDupBlocks.apiKeyLogin.length ∧ 1 < cfgDupBlocks.emailLogin.length
    ∧ inputValidation cfgDupBlocks = .error "api_key_login block may appear only once"
    ∧ strMentions "api_key_login block may appear only once" "email" = false := by
  decide

/-- Claim C5 (amended): whenever some login block type appears more than
once, provider configuration fails before any network call and before
strategy selection with a single configuration error: the dedicated error
message of the first offending block type in the fixed order
`api_key_login`, `email_login`, `aws_iam_login`, `azure_ad_login`. -/
theorem C5_duplicate_blocks_rejected (cfg : ProviderConfig) (env : EnvVars)
    (awsF azF : Except String String) (exec : Auth → CallResult AuthOutput)
    (hdup : 1 < cfg.apiKeyLogin.length ∨ 1 < cfg.emailLogin.length
      ∨ 1 < cfg.awsIAMLogin.length ∨ 1 < cfg.azureADLogin.length) :
    ∃ msg, inputValidation cfg = .error msg
      ∧ configureProvider cfg env awsF azF exec = (.error msg, 0)
      ∧ (1 < cfg.apiKeyLogin.length → msg = "api_key_login block may appear only once")
      ∧ (cfg.apiKeyLogin.length ≤ 1 → 1 < cfg.emailLogin.length →
          msg = "emailLogin block may appear only once")
      ∧ (cfg.apiKeyLogin.length ≤ 1 → cfg.emailLogin.length ≤ 1 →
          1 < cfg.awsIAMLogin.length → msg = "aws_iam_login block may appear only once")
      ∧ (cfg.apiKeyLogin.length ≤ 1 → cfg.emailLogin.length ≤ 1 →
          cfg.awsIAMLogin.length ≤ 1 → 1 < cfg.azureADLogin.length →
          msg = "azure_ad_login block may appear only once") := by
  by_cases h1 : 1 < cfg.apiKeyLogin.length
  · refine ⟨_, ?_, ?_, fun _ => rfl, ?_, ?_, ?_⟩
    · simp [inputValidation, h1]
    · simp [configureProvider, inputValidation, h1]
    · intro hle; exact absurd h1 (by omega)
    · intro hle; exact absurd h1 (by omega)
    · intro hle; exact absurd h1 (by omega)
  · by_cases h2 : 1 < cfg.emailLogin.length
    · refine ⟨_, ?_, ?_, fun h => absurd h h1, fun _ _ => rfl, ?_, ?_⟩
      · simp [inputValidation, h1, h2]
      · simp [configureProvider, inputValidation, h1, h2]
      · intro _ hle; exact absurd h2 (by omega)
      · intro _ hle; exact absurd h2 (by omega)
    · by_cases h3 : 1 < cfg.awsIAMLogin.length
      · refine ⟨_, ?_, ?_, fun h => absurd h h1, fun _ h => absurd h h2,
          fun _ _ _ => rfl, ?_⟩
        · simp [inputValidation, h1, h2, h3]
        · simp [configureProvider, inputValidation, h1, h2, h3]
        · intro _ _ hle; exact absurd h3 (by omega)
      · by_cases h4 : 1 < cfg.azureADLogin.length
        · refine ⟨_, ?_, ?_, fun h => absurd h h1, fun _ h => absurd h h2,
            fun _ _ h => absurd h h3, fun _ _ _ _ => rfl⟩
          · simp [inputValidation, h1, h2, h3, h4]
          · simp [configureProvider, inputValidation, h1, h2, h3, h4]
        · rcases hdup with h | h | h | h
          · exact absurd h h1
          · exact absurd h h2
          · exact absurd h h3
          · exact absurd h h4

/-- Witness for the amended C5 at the concrete duplicated configuration. -/
theorem C5_duplicate_blocks_witness :
    ∃ msg, inputValidation cfgDupBlocks = .error msg
      ∧ configureProvider cfgDupBlocks envEmpty (Except.ok "") (Except.ok "")
          (fun _ => .err (.transport "net")) = (.error msg, 0)
      ∧ (1 < cfgDupBlocks.apiKeyLogin.length →
          msg = "api_key_login block may appear only once")
      ∧ (cfgDupBlocks.apiKeyLogin.length ≤ 1 → 1 < cfgDupBlocks.emailLogin.length →
          msg = "emailLogin block may appear only once")
      ∧ (cfgDupBlocks.apiKeyLogin.length ≤ 1 → cfgDupBlocks.emailLogin.length ≤ 1 →
          1 < cfgDupBlocks.awsIAMLogin.length →
          msg = "aws_iam_login block may appear only once")
      ∧ (cfgDupBlocks.apiKeyLogin.length ≤ 1 → cfgDupBlocks.emailLogin.length ≤ 1 →
          cfgDupBlocks.awsIAMLogin.length ≤ 1 → 1 < cfgDupBlocks.azureADLogin.length →
          msg = "azure_ad_login block may appear only once") :=
  C5_duplicate_blocks_rejected cfgDupBlocks envEmpty (Except.ok "") (Except.ok "")
    (fun _ => .err (.transport "net")) (Or.inl (by decide))

/-- Claim C6: with no login block of any type and without both credential
environment variables non-empty, configuration fails — independently of the
cloud-identity oracles and of the token-exchange oracle, with zero
token-exchange calls — with the configuration error whose message
enumerates the four supported login methods (the email/password method is
named `password_login` in it). -/
theorem C6_no_login_method_error (cfg : ProviderConfig) (env : EnvVars)
    (awsF azF : Except String String) (exec : Auth → CallResult AuthOutput)
    (hak : cfg.apiKeyLogin = []) (hem : cfg.emailLogin = [])
    (haw : cfg.awsIAMLogin = []) (haz : cfg.azureADLogin = [])
    (henv : (env.accessId != "" && env.accessKey != "") = false) :
    configureProvider cfg env awsF azF exec
      = (.error "please support login method: api_key_login/password_login/aws_iam_login/azure_ad_login", 0)
    ∧ strMentions
        "please support login method: api_key_login/password_login/aws_iam_login/azure_ad_login"
        "api_key_login" = true
    ∧ strMentions
        "please support login method: api_key_login/password_login/aws_iam_login/azure_ad_login"
        "password_login" = true
    ∧ strMentions
        "please support login method: api_key_login/password_login/aws_iam_login/azure_ad_login"
        "aws_iam_login" = true
    ∧ strMentions
        "please support login method: api_key_login/password_login/aws_iam_login/azure_ad_login"
        "azure_ad_login" = true := by
  refine ⟨?_, by decide, by decide, by decide, by decide⟩
  simp [configureProvider, inputValidation, setAuthBody, hak, hem, haw, haz, henv]

/-- Witness for C6 at the empty configuration and empty environment. -/
theorem C6_no_login_method_witness :
    configureProvider cfgEmpty envEmpty (Except.ok "c") (Except.ok "c")
        (fun _ => .err (.transport "net"))
      = (.error "please support login method: api_key_login/password_login/aws_iam_login/azure_ad_login", 0)
    ∧ strMentions
        "please support login method: api_key_login/password_login/aws_iam_login/azure_ad_login"
        "api_key_login" = true := by
  have h := C6_no_login_method_error cfgEmpty envEmpty (Except.ok "c") (Except.ok "c")
      (fun _ => .err (.transport "net")) rfl rfl rfl rfl (by decide)
  exact ⟨h.1, h.2.1⟩

/-- Claim C7: once validation and strategy selection succeed, the token
exchange makes exactly one call; on success the bearer token is extracted
from the response and returned; a structured API error is surfaced with the
response body verbatim in the message, a transport error with the
underlying error text. -/
theorem C7_token_exchange_single_attempt (cfg : ProviderConfig) (env : EnvVars)
    (awsF azF : Except String String) (exec : Auth → CallResult AuthOutput)
    (authBody : Auth)
    (hval : inputValidation cfg = .ok ())
    (hbody : setAuthBody cfg env awsF azF = .ok authBody) :
    (∀ out : AuthOutput, exec authBody = .ok out →
        configureProvider cfg env awsF azF exec = (.ok out.token, 1))
    ∧ (∀ (status : Nat) (body : String), exec authBody = .err (.api status body) →
        configureProvider cfg env awsF azF exec
          = (.error ("authentication failed: " ++ body), 1))
    ∧ (∀ m : String, exec authBody = .err (.transport m) →
        configureProvider cfg env awsF azF exec
          = (.error ("authentication failed: " ++ m), 1))
    ∧ (configureProvider cfg env awsF azF exec).2 = 1 := by
  refine ⟨?_, ?_, ?_, ?_⟩
  · intro out h; simp [configureProvider, hval, hbody, h]
  · intro status body h; simp [configureProvider, hval, hbody, h]
  · intro m h; simp [configureProvider, hval, hbody, h]
  · rcases h : exec authBody with out | e
    · simp [configureProvider, hval, hbody, h]
    · rcases e with ⟨status, body⟩ | m <;> simp [configureProvider, hval, hbody, h]

/-- Witness for C7 at a concrete API-key configuration with a successful
exchange returning a concrete token. -/
theorem C7_token_exchange_witness :
    configureProvider cfgApiKey envEmpty (Except.ok "") (Except.ok "")
        (fun _ => .ok { token := "t-123" }) = (.ok "t-123", 1) := by
  have h := C7_token_exchange_single_attempt cfgApiKey envEmpty
      (Except.ok "") (Except.ok "") (fun _ => .ok { token := "t-123" })
      { accessId := some "p-id", accessKey := some "p-key", adminEmail := none,
        adminPassword := none, cloudId := none, accessType := some common.ApiKey }
      (by decide) (by decide)
  exact h.1 { token := "t-123" } rfl

/-- Claim C8: the delete endpoint is called with the stored identity, and
any error of the remote call is surfaced unmodified (the error value
itself) — in particular a 404 structured API error is an error on Delete,
unlike Read. -/
theorem C8_delete_surfaces_errors_unmodified (st : SamlState) (token : String) :
    (samlDeleteBody st token).name = st.id
    ∧ (∀ (exec : DeleteAuthMethod → CallResult Unit) (e : RemoteErr),
        exec (samlDeleteBody st token) = .err e →
        resourceAuthMethodSamlDelete st token exec = (st, .error e))
    ∧ (∀ (exec : DeleteAuthMethod → CallResult Unit) (body : String),
        exec (samlDeleteBody st token) = .err (.api 404 body) →
        resourceAuthMethodSamlDelete st token exec = (st, .error (.api 404 body)))
    ∧ (∀ exec : DeleteAuthMethod → CallResult Unit,
        exec (samlDeleteBody st token) = .ok () →
        resourceAuthMethodSamlDelete st token exec = (st, .ok ())) := by
  refine ⟨rfl, ?_, ?_, ?_⟩ <;> intros <;>
  simp [resourceAuthMethodSamlDelete, *]

/-- Witness for C8: a concrete 404 on Delete is surfaced as an error. -/
theorem C8_delete_witness :
    resourceAuthMethodSamlDelete stExample "tok"
        (fun _ => .err (.api 404 "not found"))
      = (stExample, .error (.api 404 "not found")) :=
  (C8_delete_surfaces_errors_unmodified stExample "tok").2.2.1
    (fun _ => .err (.api 404 "not found")) "not found" rfl

/-- Counterexample to claim C9 as stated: the CIDR whitelist can be present
(non-nil, here `some ""`) in the response and yet not written back into
state — the `bound_ips` field keeps its previous value instead of the
comma-split of the response value. -/
theorem C9_counterexample_empty_cidr_not_written :
    rOutEmptyCidr.accessInfo.cidrWhitelist = some ""
    ∧ (resourceAuthMethodSamlRead stBoundIp "tok"
          (fun _ => .ok rOutEmptyCidr)).1.bound_ips = stBoundIp.bound_ips
    ∧ stBoundIp.bound_ips ≠ stringsSplit "" ',' := by
  decide

/-- Claim C9 (amended): on a successful Read, every optional field present
in the response is written back into state — except the CIDR whitelist,
which is written (split on commas) only when additionally non-empty — every
absent field is left untouched, and the identity and name are unchanged. -/
theorem C9_read_frame (st : SamlState) (token : String)
    (exec : GetAuthMethod → CallResult GetAuthMethodOutput)
    (r : GetAuthMethodOutput)
    (h : exec { name := st.id, token := token } = .ok r) :
    (resourceAuthMethodSamlRead st token exec).2 = .ok ()
    ∧ (resourceAuthMethodSamlRead st token exec).1.access_id
        = r.authMethodAccessId.getD st.access_id
    ∧ (resourceAuthMethodSamlRead st token exec).1.access_expires
        = r.accessInfo.accessExpires.getD st.access_expires
    ∧ (resourceAuthMethodSamlRead st token exec).1.force_sub_claims
        = r.accessInfo.forceSubClaims.getD st.force_sub_claims
    ∧ (resourceAuthMethodSamlRead st token exec).1.bound_ips
        = (match r.accessInfo.cidrWhitelist with
           | some c => if c != "" then stringsSplit c ',' else st.bound_ips
           | none => st.bound_ips)
    ∧ (resourceAuthMethodSamlRead st token exec).1.unique_identifier
        = r.accessInfo.samlAccessRules.uniqueIdentifier.getD st.unique_identifier
    ∧ (resourceAuthMethodSamlRead st token exec).1.idp_metadata_url
        = r.accessInfo.samlAccessRules.idpMetadataUrl.getD st.idp_metadata_url
    ∧ (resourceAuthMethodSamlRead st token exec).1.allowed_redirect_uri
        = r.accessInfo.samlAccessRules.allowedRedirectURIs.getD st.allowed_redirect_uri
    ∧ (resourceAuthMethodSamlRead st token exec).1.id = st.id
    ∧ (resourceAuthMethodSamlRead st token exec).1.name = st.name := by
  rw [read_ok_eq _ _ _ _ h]
  exact ⟨rfl, rfl, rfl, rfl, rfl, rfl, rfl, rfl, rfl, rfl⟩

/-- Witness for the amended C9 at a concrete state and response. -/
theorem C9_read_frame_witness :
    (resourceAuthMethodSamlRead stExample "tok"
        (fun _ => .ok rOutTwoCidrs)).2 = .ok () :=
  (C9_read_frame stExample "tok" (fun _ => .ok rOutTwoCidrs) rOutTwoCidrs rfl).1

/-- Claim C10: on a successful Update the response is discarded and the only
state mutation is re-setting the identity to the configured name — in
particular a server-computed access id in the update response is not
stored — unlike Create, whose successful path stores the response's access
id when present. -/
theorem C10_update_discards_response (st : SamlState) (token : String) :
    (∀ (exec : UpdateAuthMethodSAML → CallResult UpdateSAMLOutput)
        (out : UpdateSAMLOutput),
        exec (samlUpdateBody st token) = .ok out →
        resourceAuthMethodSamlUpdate st token exec
          = ({ st with id := st.name }, .ok ()))
    ∧ (∀ (exec : CreateAuthMethodSAML → CallResult CreateSAMLOutput)
        (cout : CreateSAMLOutput),
        exec (samlCreateBody st token) = .ok cout →
        (resourceAuthMethodSamlCreate st token exec).1.access_id
          = cout.accessId.getD st.access_id) := by
  constructor
  · intro exec out h
    simp [resourceAuthMethodSamlUpdate, h]
  · intro exec cout h
    rcases cout with ⟨_ | a⟩ <;> simp [resourceAuthMethodSamlCreate, h, Option.getD]

/-- Witness for C10: a concrete update response carrying an access id is
discarded; only the identity is re-set. -/
theorem C10_update_discards_witness :
    resourceAuthMethodSamlUpdate stExample "tok"
        (fun _ => .ok { accessId := some "p-new" })
      = ({ stExample with id := stExample.name }, .ok ()) :=
  (C10_update_discards_response stExample "tok").1
    (fun _ => .ok { accessId := some "p-new" }) { accessId := some "p-new" } rfl

end Akeyless
